import Mathlib

/-
Shallow embedding of express-zod-openapi-autogen (src/openAPI.ts,
src/openAPIRoute.ts, src/schemas.ts).

Conventions:
- JS object identity (the source compares Zod schema instances with pointer
  equality) is embedded as an explicit numeric id carried by every schema
  node; two nodes are "the same instance" exactly when their ids coincide.
- Zod validators are embedded as abstract functions from values to a
  success/failure result, matching the safeParse contract the source uses.
- JS string truthiness (used by the source on error descriptions and on the
  response content type) is embedded as "present and non-empty".
-/

/-! Zod schema object model (doc-assembly side of openAPI.ts) -/

/-- Structural view of a Zod schema instance, with an explicit `id` standing
for JS object identity.  `effects` corresponds to a ZodEffects wrapper and
carries the optional openapi refId read by the source
(`type._def.openapi?._internal?.refId`) together with the inner schema
(`type.innerType()`).  `array` carries the element (`type.element`). -/
inductive Zod where
  | object (id : Nat)
  | array (id : Nat) (elem : Zod)
  | effects (id : Nat) (refId : Option String) (inner : Zod)
  | other (id : Nat)
deriving DecidableEq

def Zod.id : Zod → Nat
  | .object i => i
  | .array i _ => i
  | .effects i _ _ => i
  | .other i => i

def Zod.isObjectInstance : Zod → Bool
  | .object _ => true
  | _ => false

def Zod.isArrayInstance : Zod → Bool
  | .array _ _ => true
  | _ => false

def Zod.isEffectsInstance : Zod → Bool
  | .effects _ _ _ => true
  | _ => false

/-- The element of a ZodArray, as read by the source's type.element. -/
def Zod.element? : Zod → Option Zod
  | .array _ e => some e
  | _ => none

/-- One entry of the OpenAPIRegistry built at the start of
buildOpenAPIDocument: a (key, schema) pair; the `registered` handle returned
by registry.register is identified by the key. -/
structure SchemaEntry where
  key : String
  schema : Zod
deriving DecidableEq

/-- Result of referencingNamedSchemas: either the registered handle for a
named component, an array of such a handle (z.array(registered)), or the
schema itself to be inlined. -/
inductive ResolvedSchema where
  | registeredRef (key : String)
  | arrayOfRef (key : String)
  | inline (s : Zod)
deriving DecidableEq

/-- openAPI.ts lines 44-67: the reference resolver closure. -/
def referencingNamedSchemas (schemas : List SchemaEntry) (type : Option Zod) :
    Option ResolvedSchema :=
  match type with
  | none => none
  | some t =>
    match t with
    | .effects _ refId inner =>
      match schemas.find? (fun s => refId == some s.key) with
      | some nonEffectedObj => some (.registeredRef nonEffectedObj.key)
      | none => some (.inline inner)
    | _ =>
      match schemas.find? (fun a => a.schema.id == t.id) with
      | some named => some (.registeredRef named.key)
      | none =>
        match t with
        | .array _ elem =>
          match schemas.find? (fun a => a.schema.id == elem.id) with
          | some namedChild => some (.arrayOfRef namedChild.key)
          | none => some (.inline t)
        | _ => some (.inline t)

/-- openAPI.ts lines 35-42: the registry is built from all exported
(name, schema) pairs of the schema modules, keeping only instances of
ZodObject or ZodArray. -/
def buildRegistrySchemas (modules : List (List (String × Zod))) : List SchemaEntry :=
  ((modules.flatten).filter
      (fun kv => kv.2.isObjectInstance || kv.2.isArrayInstance)).map
    (fun kv => { key := kv.1, schema := kv.2 })

/-! Response synthesis (openAPI.ts lines 92-163) -/

/-- The schema placed in a response's content map: the fixed ErrorResponse
envelope (schemas.ts), z.unknown() for a content-type override, or a
resolved route response schema. -/
inductive ContentSchema where
  | errorResponseSchema
  | zUnknown
  | resolved (r : ResolvedSchema)
deriving DecidableEq

structure ResponseConfig where
  description : String
  content : Option (String × ContentSchema) := none
deriving DecidableEq

/-- Fields of the SchemaDefinition attached to a route, as read by
buildOpenAPIDocument (openAPIRoute.ts SchemaDefinition). -/
structure RouteSchemaInfo where
  tag : Option String := none
  summary : Option String := none
  description : Option String := none
  security : Option String := none
  body : Option Zod := none
  query : Option Zod := none
  params : Option Zod := none
  response : Option Zod := none
  responseContentType : Option String := none
deriving DecidableEq

/-- JS truthiness of an optional string field: present and non-empty. -/
def jsTruthy (s : Option String) : Bool := s.getD "" != ""

/-- openAPI.ts lines 92-163: the synthesized responses map for one route,
keyed by status code, in the source's insertion order
(401, 403, 404, 400, then 200/204). -/
def buildResponses (errors401 errors403 : Option String) (info : RouteSchemaInfo)
    (schemas : List SchemaEntry) : List (Nat × ResponseConfig) :=
  (if jsTruthy errors401 then
    [(401, { description := errors401.getD "",
             content := some ("application/json", ContentSchema.errorResponseSchema) })]
   else []) ++
  (if jsTruthy errors403 then
    [(403, { description := errors403.getD "",
             content := some ("application/json", ContentSchema.errorResponseSchema) })]
   else []) ++
  (if info.params.isSome then
    [(404, { description := "The item you requested could not be found",
             content := some ("application/json", ContentSchema.errorResponseSchema) })]
   else []) ++
  (if info.query.isSome || info.body.isSome then
    [(400, { description := "The request payload or query string parameter you passed was not valid",
             content := some ("application/json", ContentSchema.errorResponseSchema) })]
   else []) ++
  (if jsTruthy info.responseContentType then
    [(200, { description := "A " ++ info.responseContentType.getD "" ++ " payload",
             content := some (info.responseContentType.getD "", ContentSchema.zUnknown) })]
   else
     match info.response with
     | some r =>
       [(200, { description := "200",
                content := some ("application/json",
                  ContentSchema.resolved
                    ((referencingNamedSchemas schemas (some r)).getD (.inline r))) })]
     | none => [(204, { description := "No content - successful operation" })])

/-! Runtime validation wrapper (openAPIRoute.ts) -/

structure ZodIssue where
  path : List String
  message : String
deriving DecidableEq

structure ZodError where
  issues : List ZodIssue
deriving DecidableEq

inductive SafeParseReturnType (V : Type) where
  | success (data : V)
  | failure (error : ZodError)
deriving DecidableEq

def SafeParseReturnType.isSuccess {V : Type} : SafeParseReturnType V → Bool
  | .success _ => true
  | .failure _ => false

/-- A Zod validator over values of type V, abstracted to its safeParse
behaviour (the validation-library internals are a black box). -/
structure ZodSchema (V : Type) where
  safeParse : V → SafeParseReturnType V

/-- The runtime part of a route's SchemaDefinition: the four optional
validators (tag/summary and the other metadata fields play no role in the
wrapper's behaviour). -/
structure SchemaDefinition (V : Type) where
  body : Option (ZodSchema V) := none
  query : Option (ZodSchema V) := none
  params : Option (ZodSchema V) := none
  response : Option (ZodSchema V) := none

/-- openAPIRoute.ts lines 44-53: a missing schema is a trivial success that
passes the original value through. -/
def check {V : Type} (obj : V) (schema : Option (ZodSchema V)) : SafeParseReturnType V :=
  match schema with
  | none => .success obj
  | some s => s.safeParse obj

/-- openAPIRoute.ts lines 65-69. -/
def getErrorSummary (error : ZodError) : String :=
  String.intercalate ", "
    (error.issues.map (fun i =>
      if i.path.length != 0 then String.intercalate "." i.path ++ ": " ++ i.message
      else i.message))

/-- What the wrapper decides to do after checking the three inputs:
invoke the handler with the replaced (validated) values, respond with a
status and an error body (res.status(s).json(\x7b error \x7d)), or forward the
defensive generic error to next (openAPIRoute.ts line 132). -/
inductive RouteStep (V : Type) where
  | invokeHandler (body query params : V)
  | respond (status : Nat) (error : String)
  | nextInternalError
deriving DecidableEq

def RouteStep.isInternalFallback {V : Type} : RouteStep V → Bool
  | .nextInternalError => true
  | _ => false

/-- openAPIRoute.ts lines 84-132: the wrapper checks body, query and params
unconditionally, invokes the handler with the validated data when all three
succeed, otherwise responds 400 for the first failing category in the order
body, query, params, and otherwise falls through to next(generic error). -/
def openAPIRouteStep {V : Type} (schema : SchemaDefinition V)
    (reqBody reqQuery reqParams : V) : RouteStep V :=
  match check reqBody schema.body, check reqQuery schema.query,
        check reqParams schema.params with
  | .success b, .success q, .success p => .invokeHandler b q p
  | rb, rq, rp =>
    match rb with
    | .failure e => .respond 400 (getErrorSummary e)
    | _ =>
      match rq with
      | .failure e => .respond 400 (getErrorSummary e)
      | _ =>
        match rp with
        | .failure e => .respond 400 (getErrorSummary e)
        | _ => .nextInternalError

/-- Outcome of one full wrapper invocation, including the handler call
(openAPIRoute.ts lines 113-117): the handler's returned value, an error
forwarded to next, a 400 response, or the defensive generic next(error). -/
inductive RouteOutcome (V E : Type) where
  | handlerReturned (v : V)
  | forwardedToNext (e : E)
  | responded (status : Nat) (error : String)
  | nextInternalError
deriving DecidableEq

/-- The wrapped handler: on a successful validation step the (possibly
asynchronous, here already awaited) middleware runs inside try/catch and a
thrown error is passed to next. -/
def openAPIRouteRun {V E : Type} (schema : SchemaDefinition V)
    (middleware : V → V → V → Except E V) (reqBody reqQuery reqParams : V) :
    RouteOutcome V E :=
  match openAPIRouteStep schema reqBody reqQuery reqParams with
  | .invokeHandler b q p =>
    match middleware b q p with
    | .ok v => .handlerReturned v
    | .error e => .forwardedToNext e
  | .respond s e => .responded s e
  | .nextInternalError => .nextInternalError

/-- z.union(options).safeParse succeeds iff some option parses the value. -/
def zodUnionAccepts {V : Type} (options : List (ZodSchema V)) (v : V) : Bool :=
  options.any (fun s => (s.safeParse v).isSuccess)

/-- openAPIRoute.ts lines 92-107: the patched res.json.  Returns whether the
schema-mismatch diagnostic is emitted and the value handed to the original
res.json.  Outside production, when a response schema is declared, the
payload is validated against the union of that schema and the ErrorResponse
envelope; without a declared response schema no validation happens; the
original write always receives the unchanged body. -/
def resJsonPatched {V : Type} (nodeEnv : String) (response : Option (ZodSchema V))
    (errorResponse : ZodSchema V) (body : V) : Bool × V :=
  let warned :=
    if nodeEnv != "production" then
      match response with
      | some rs => !(zodUnionAccepts [rs, errorResponse] body)
      | none => false
    else false
  (warned, body)

/-! String utilities used by getRoutes and the path-template translation -/

/-- First-occurrence literal replacement, as JS String.prototype.replace with
a string pattern. -/
def replaceFirstAux (pat rep : List Char) : List Char → List Char
  | [] => if pat.isPrefixOf ([] : List Char) then rep else []
  | c :: rest =>
    if pat.isPrefixOf (c :: rest) then rep ++ (c :: rest).drop pat.length
    else c :: replaceFirstAux pat rep rest

def replaceFirstStr (s pat rep : String) : String :=
  String.mk (replaceFirstAux pat.toList rep.toList s.toList)

/-- Case-insensitive prefix test (ASCII folding, as the regex i flag). -/
def ciIsPrefixOf (pat s : List Char) : Bool :=
  (pat.map Char.toLower).isPrefixOf (s.map Char.toLower)

/-- Fuel-indexed worker for the global case-insensitive literal replacement
(JS String.prototype.replace with a gi regex built from a literal pattern):
leftmost, non-overlapping, scanning resumes after each replacement.  The
fuel only makes the recursion structural; at fuel = s.length it never runs
out, since every step consumes at least one character of s. -/
def replaceAllCIAux (pat rep : List Char) : Nat → List Char → List Char
  | 0, s => s
  | _ + 1, [] => []
  | fuel + 1, c :: rest =>
    if (pat != []) && ciIsPrefixOf pat (c :: rest) then
      rep ++ replaceAllCIAux pat rep fuel ((c :: rest).drop pat.length)
    else
      c :: replaceAllCIAux pat rep fuel rest

def replaceAllCI (pat rep s : List Char) : List Char :=
  replaceAllCIAux pat rep s.length s

/-- JS String.prototype.split on a single-character separator. -/
def splitOnChar (c : Char) : List Char → List (List Char)
  | [] => [[]]
  | x :: rest =>
    match splitOnChar c rest with
    | [] => [[x]]
    | h :: t => if x == c then [] :: h :: t else (x :: h) :: t

/-- openAPI.ts lines 86-90: every path segment containing a colon is
replaced, globally and case-insensitively, by the segment with its first
character dropped and wrapped in braces. -/
def pathOpenAPIFormat (path : String) : String :=
  let segs := (splitOnChar '/' path.toList).filter (fun seg => seg.contains ':')
  String.mk (segs.foldl
    (fun iPath seg =>
      replaceAllCI seg (("\x7b" ++ String.mk (seg.drop 1) ++ "\x7d").toList) iPath)
    path.toList)

/-! Route discovery (openAPI.ts lines 236-273) -/

/-- The regexp attached to an express layer, as the source observes it:
the fast_slash flag and the textual form produced by toString(). -/
structure LayerRegexp where
  fastSlash : Bool
  text : String
deriving DecidableEq

/-- openAPI.ts lines 237-242: strip the regex-anchor decorations from a
mount-path matcher to recover the literal prefix. -/
def regexPrefixToString (p : LayerRegexp) : String :=
  if p.fastSlash then ""
  else replaceFirstStr (replaceFirstStr p.text "/^\\" "") "(?:\\/(?=$))?(?=\\/|$)/i" ""

structure RouteLayer where
  method : String
  handle : Nat
deriving DecidableEq

structure ExpressRoute where
  path : String
  stack : List RouteLayer
deriving DecidableEq

/-- An entry of an express router stack: its name, its layer regexp, the
stack of the mounted sub-router when the layer's handle has one, and the
route of a leaf route layer.  Handlers are identified by numeric ids. -/
inductive LayerNode where
  | mk (name : String) (regexp : LayerRegexp) (handleStack : Option (List LayerNode))
      (route : Option ExpressRoute)

structure RouteTriple where
  path : String
  method : String
  handler : Nat
deriving DecidableEq

mutual
/-- openAPI.ts lines 251-265: recurse into a mounted sub-router (prefixing
the recovered mount path), then emit a triple for a leaf route using the
method of the first layer and the handler of the last layer. -/
def processMiddleware (pfx : String) : LayerNode → List RouteTriple
  | .mk name regexp handleStack route =>
    (match handleStack with
     | some stk =>
       if name == "router" then processStack (pfx ++ regexPrefixToString regexp) stk
       else []
     | none => []) ++
    (match route with
     | none => []
     | some r =>
       [{ path := pfx ++ r.path,
          method := ((r.stack.head?).map (fun l => l.method)).getD "",
          handler := ((r.stack.getLast?).map (fun l => l.handle)).getD 0 }])

def processStack (pfx : String) : List LayerNode → List RouteTriple
  | [] => []
  | m :: rest => processMiddleware pfx m ++ processStack pfx rest
end

/-- openAPI.ts lines 244-273: walk every top-level router's stack. -/
def getRoutes (routers : List (List LayerNode)) : List RouteTriple :=
  routers.flatten.flatMap (fun m => processMiddleware "" m)

/-! Post-validation of path parameters (openAPI.ts lines 206-224) -/

structure OAParameter where
  name : String
  location : String
  required : Option Bool
deriving DecidableEq

structure OAOperation where
  parameters : List OAParameter
deriving DecidableEq

/-- The console.warn text emitted for an optional path parameter. -/
def optionalPathParamWarning (route pname : String) : String :=
  "OpenAPI Warning: The route " ++ route ++ " has an optional parameter " ++ pname ++
  " in the path. Optional parameters in the route path are not supported by readme.io. " ++
  "Make the parameter required or split the route definition into two separate ones, " ++
  "one with the param and one without."

/-- The in-place repair applied to one parameter. -/
def fixParam (p : OAParameter) : OAParameter :=
  if p.required == some false && p.location == "path" then { p with required := some true }
  else p

def fixParameters (route : String) : List OAParameter → List OAParameter × List String
  | [] => ([], [])
  | p :: rest =>
    let r := fixParameters route rest
    if p.required == some false && p.location == "path" then
      ({ p with required := some true } :: r.1, optionalPathParamWarning route p.name :: r.2)
    else
      (p :: r.1, r.2)

def fixOperations (route : String) : List (String × OAOperation) → List (String × OAOperation) × List String
  | [] => ([], [])
  | (m, op) :: rest =>
    let fp := fixParameters route op.parameters
    let r := fixOperations route rest
    ((m, { parameters := fp.1 }) :: r.1, fp.2 ++ r.2)

/-- openAPI.ts lines 208-224: traverse every path, method and parameter of
the generated document; rewrite optional path parameters to required and
collect one warning per offending parameter, in traversal order. -/
def fixPaths : List (String × List (String × OAOperation)) → List (String × List (String × OAOperation)) × List String
  | [] => ([], [])
  | (route, ops) :: rest =>
    let fo := fixOperations route ops
    let r := fixPaths rest
    ((route, fo.1) :: r.1, fo.2 ++ r.2)

/-! Concrete inputs used by witness and counterexample theorems -/

def nameIssueW : ZodIssue := { path := ["name"], message := "Expected string, received number" }

def bodyFailSchemaW : ZodSchema Nat := { safeParse := fun _ => .failure { issues := [nameIssueW] } }

def sdBodyFailW : SchemaDefinition Nat := { body := some bodyFailSchemaW }

def coerceSchemaW : ZodSchema Nat := { safeParse := fun v => .success (v + 1) }

def sdCoerceW : SchemaDefinition Nat := { body := some coerceSchemaW }

def errEnvelopeW : ZodSchema Nat :=
  { safeParse := fun v =>
      if v == 0 then .success v
      else .failure { issues := [{ path := [], message := "Invalid input" }] } }

def c2WitnessModules : List (List (String × Zod)) := [[("Body", Zod.object 1)]]

def cexRegistryModules : List (List (String × Zod)) :=
  [[("Elem", Zod.object 1), ("List", Zod.array 2 (Zod.object 1))]]

def c3WitnessSchemas : List SchemaEntry := [{ key := "Body", schema := Zod.object 5 }]

def c10WitnessModules : List (List (String × Zod)) :=
  [[("A", Zod.object 1), ("E", Zod.effects 2 none (Zod.object 1))]]

def v1MountRegexp : LayerRegexp :=
  { fastSlash := false, text := "/^\\/v1(?:\\/(?=$))?(?=\\/|$)/i" }

def usersIdRoute : LayerNode :=
  .mk "bound dispatch" { fastSlash := false, text := "" } none
    (some { path := "/users/:id", stack := [{ method := "get", handle := 7 }] })

def v1Router : LayerNode := .mk "router" v1MountRegexp (some [usersIdRoute]) none

def docPathsW : List (String × List (String × OAOperation)) :=
  [("/users/\x7bid\x7d",
    [("get", { parameters := [{ name := "id", location := "path", required := some false }] })])]

/-! Helper lemmas -/

@[simp] theorem Zod.id_object (i : Nat) : (Zod.object i).id = i := rfl

@[simp] theorem Zod.id_array (i : Nat) (e : Zod) : (Zod.array i e).id = i := rfl

@[simp] theorem Zod.id_effects (i : Nat) (r : Option String) (inner : Zod) :
    (Zod.effects i r inner).id = i := rfl

@[simp] theorem Zod.id_other (i : Nat) : (Zod.other i).id = i := rfl

/-- When the registry's schema ids are pairwise distinct (as the ids of
distinct JS object instances are), identity lookup of a member entry's
schema finds exactly that entry. -/
theorem find_entry_by_id_of_mem {l : List SchemaEntry}
    (hnd : (l.map (fun e => e.schema.id)).Nodup)
    {ent : SchemaEntry} (hm : ent ∈ l) :
    l.find? (fun a => a.schema.id == ent.schema.id) = some ent := by
  induction l with
  | nil => simp at hm
  | cons x xs ih =>
    rw [List.map_cons, List.nodup_cons] at hnd
    rcases List.mem_cons.mp hm with hm | hm
    · subst hm
      exact List.find?_cons_of_pos _ (by simp)
    · have hne : x.schema.id ≠ ent.schema.id := by
        intro he
        exact hnd.1 (he ▸ List.mem_map.mpr ⟨ent, hm, rfl⟩)
      rw [List.find?_cons_of_neg _ (by simpa using hne)]
      exact ih hnd.2 hm

/-- Every registry entry passed the ZodObject/ZodArray filter. -/
theorem mem_buildRegistrySchemas_kind {modules : List (List (String × Zod))}
    {e : SchemaEntry} (h : e ∈ buildRegistrySchemas modules) :
    (e.schema.isObjectInstance || e.schema.isArrayInstance) = true := by
  rcases List.mem_map.mp h with ⟨kv, hkv, rfl⟩
  exact (List.mem_filter.mp hkv).2

/-- Every registry entry comes from an exported (name, schema) pair. -/
theorem mem_buildRegistrySchemas_src {modules : List (List (String × Zod))}
    {e : SchemaEntry} (h : e ∈ buildRegistrySchemas modules) :
    (e.key, e.schema) ∈ modules.flatten := by
  rcases List.mem_map.mp h with ⟨kv, hkv, rfl⟩
  exact (List.mem_filter.mp hkv).1

/-! Claim theorems -/

/-- C1: the validation wrapper checks body, query and params each against
its declared schema (a missing schema is a trivial success passing the value
through), and when at least one fails it responds 400 with an error body
summarising only the first failing category in the fixed order body, query,
params; the summary renders each violation as path-joined-with-dots: message
(bare message for an empty path), comma-joined in validator order. -/
theorem openAPIRoute_input_validation {V : Type} (schema : SchemaDefinition V)
    (reqBody reqQuery reqParams : V) :
    (∀ obj : V, check obj (none : Option (ZodSchema V)) = .success obj)
    ∧ (∀ e, check reqBody schema.body = .failure e →
        openAPIRouteStep schema reqBody reqQuery reqParams = .respond 400 (getErrorSummary e))
    ∧ (∀ b e, check reqBody schema.body = .success b →
        check reqQuery schema.query = .failure e →
        openAPIRouteStep schema reqBody reqQuery reqParams = .respond 400 (getErrorSummary e))
    ∧ (∀ b q e, check reqBody schema.body = .success b →
        check reqQuery schema.query = .success q →
        check reqParams schema.params = .failure e →
        openAPIRouteStep schema reqBody reqQuery reqParams = .respond 400 (getErrorSummary e))
    ∧ (∀ issues, getErrorSummary { issues := issues } =
        String.intercalate ", " (issues.map (fun i =>
          if i.path = [] then i.message
          else String.intercalate "." i.path ++ ": " ++ i.message))) := by
  refine ⟨fun obj => rfl, ?_, ?_, ?_, ?_⟩
  · intro e he
    cases hq : check reqQuery schema.query <;> cases hp : check reqParams schema.params <;>
      simp [openAPIRouteStep, he, hq, hp]
  · intro b e hb he
    cases hp : check reqParams schema.params <;>
      simp [openAPIRouteStep, hb, he, hp]
  · intro b q e hb hq he
    simp [openAPIRouteStep, hb, hq, he]
  · intro issues
    simp only [getErrorSummary]
    congr 1
    apply List.map_congr_left
    intro i _
    cases hi : i.path with
    | nil => simp [hi]
    | cons a t => simp [hi]

/-- C1 witness: a body failing its schema yields the 400 response carrying
the rendered summary. -/
theorem openAPIRoute_input_validation_witness :
    openAPIRouteStep sdBodyFailW 0 1 2 = .respond 400 "name: Expected string, received number" := by
  have h := (openAPIRoute_input_validation sdBodyFailW 0 1 2).2.1 { issues := [nameIssueW] } rfl
  rw [h]; decide

/-- C9: the wrapper's final fallback (next with a generic internal error,
openAPIRoute.ts line 132) is unreachable: every combination of the three
validation outcomes leads to the handler or to a 400 response. -/
theorem openAPIRoute_fallback_unreachable {V : Type} (schema : SchemaDefinition V)
    (reqBody reqQuery reqParams : V) :
    (openAPIRouteStep schema reqBody reqQuery reqParams).isInternalFallback = false := by
  cases hb : check reqBody schema.body <;> cases hq : check reqQuery schema.query <;>
    cases hp : check reqParams schema.params <;>
      simp [openAPIRouteStep, hb, hq, hp, RouteStep.isInternalFallback]

/-- C8: when validation succeeds and the (awaited) handler throws, the
wrapper forwards the error to next; when it returns normally, its value is
the outcome — the wrapper never rethrows a handler exception. -/
theorem openAPIRoute_forwards_handler_errors {V E : Type} (schema : SchemaDefinition V)
    (middleware : V → V → V → Except E V) (reqBody reqQuery reqParams : V) :
    (∀ b q p e, openAPIRouteStep schema reqBody reqQuery reqParams = .invokeHandler b q p →
        middleware b q p = .error e →
        openAPIRouteRun schema middleware reqBody reqQuery reqParams = .forwardedToNext e)
    ∧ (∀ b q p v, openAPIRouteStep schema reqBody reqQuery reqParams = .invokeHandler b q p →
        middleware b q p = .ok v →
        openAPIRouteRun schema middleware reqBody reqQuery reqParams = .handlerReturned v) := by
  constructor
  · intro b q p e hstep hmw
    simp [openAPIRouteRun, hstep, hmw]
  · intro b q p v hstep hmw
    simp [openAPIRouteRun, hstep, hmw]

/-- C8 witness: a throwing handler's error is forwarded to next. -/
theorem openAPIRoute_forwards_handler_errors_witness :
    openAPIRouteRun ({} : SchemaDefinition Nat)
      (fun _ _ _ => Except.error "boom") 1 2 3 = .forwardedToNext "boom" :=
  (openAPIRoute_forwards_handler_errors {} (fun _ _ _ => Except.error "boom") 1 2 3).1
    1 2 3 "boom" rfl rfl

/-- C5: when body, query and params all validate, the handler is invoked
with the validated/coerced values in place of the request's originals; the
patched res.json always writes the exact payload it was given, emits the
diagnostic exactly when (outside production) a declared response schema's
union with the error envelope rejects the payload, performs no validation
at all without a declared response schema, and none in production. -/
theorem openAPIRoute_success_and_response_checks {V : Type} (schema : SchemaDefinition V)
    (errorResponse : ZodSchema V) (reqBody reqQuery reqParams : V) :
    (∀ b q p, check reqBody schema.body = .success b →
        check reqQuery schema.query = .success q →
        check reqParams schema.params = .success p →
        openAPIRouteStep schema reqBody reqQuery reqParams = .invokeHandler b q p)
    ∧ (∀ env rs body, (resJsonPatched env rs errorResponse body).2 = body)
    ∧ (∀ env body, (resJsonPatched env (none : Option (ZodSchema V)) errorResponse body).1 = false)
    ∧ (∀ env rs body, env ≠ "production" →
        (resJsonPatched env (some rs) errorResponse body).1
          = !(zodUnionAccepts [rs, errorResponse] body))
    ∧ (∀ rs body, (resJsonPatched "production" rs errorResponse body).1 = false) := by
  refine ⟨?_, fun env rs body => rfl, ?_, ?_, ?_⟩
  · intro b q p hb hq hp
    simp [openAPIRouteStep, hb, hq, hp]
  · intro env body
    simp [resJsonPatched]
  · intro env rs body h
    have henv : (env != "production") = true := by simpa using h
    simp [resJsonPatched, henv]
  · intro rs body
    simp [resJsonPatched]

/-- C5 witness: a coercing body schema hands the handler the coerced value,
and a payload accepted by the declared response schema produces no
diagnostic. -/
theorem openAPIRoute_success_and_response_checks_witness :
    openAPIRouteStep sdCoerceW 10 20 30 = .invokeHandler 11 20 30
    ∧ (resJsonPatched "test" (some coerceSchemaW) errEnvelopeW 5).1 = false := by
  refine ⟨(openAPIRoute_success_and_response_checks sdCoerceW errEnvelopeW 10 20 30).1
      11 20 30 rfl rfl rfl, ?_⟩
  have h := (openAPIRoute_success_and_response_checks sdCoerceW errEnvelopeW 10 20 30).2.2.2.1
      "test" coerceSchemaW 5 (by decide)
  rw [h]; decide

/-- C3: the resolver maps undefined to undefined; for a wrapped/transformed
schema it looks up the wrapper's declared origin name and returns that
entry's registered reference when an entry with that name exists, and
otherwise unwraps exactly one level, returning the inner schema inline
without resolving it further. -/
theorem referencingNamedSchemas_effects (schemas : List SchemaEntry) :
    (referencingNamedSchemas schemas none = none)
    ∧ (∀ i N S inner, ({ key := N, schema := S } : SchemaEntry) ∈ schemas →
        referencingNamedSchemas schemas (some (.effects i (some N) inner))
          = some (.registeredRef N))
    ∧ (∀ i refId inner, (∀ e ∈ schemas, refId ≠ some e.key) →
        referencingNamedSchemas schemas (some (.effects i refId inner))
          = some (.inline inner)) := by
  refine ⟨rfl, ?_, ?_⟩
  · intro i N S inner hmem
    cases hf : schemas.find? (fun s => some N == some s.key) with
    | none =>
      exact absurd (List.find?_eq_none.mp hf _ hmem) (by simp)
    | some e =>
      have hkey : N = e.key := by simpa using List.find?_some hf
      simp only [referencingNamedSchemas]
      rw [hf, hkey]
  · intro i refId inner hno
    have hf : schemas.find? (fun s => refId == some s.key) = none :=
      List.find?_eq_none.mpr (fun e he => by simpa using hno e he)
    simp [referencingNamedSchemas, hf]

/-- C3 witness: an effects wrapper whose refId names a registered entry
resolves to that entry's reference. -/
theorem referencingNamedSchemas_effects_witness :
    referencingNamedSchemas c3WitnessSchemas (some (.effects 9 (some "Body") (.other 3)))
      = some (.registeredRef "Body") :=
  (referencingNamedSchemas_effects c3WitnessSchemas).2.1 9 "Body" (Zod.object 5) (.other 3)
    (by decide)

/-- Identity lookup branch of the resolver: a non-wrapped schema whose id is
found in the registry resolves to the found entry's reference. -/
theorem resolver_ident_hit (schemas : List SchemaEntry) (t : Zod)
    (ht : t.isEffectsInstance = false) {e : SchemaEntry}
    (hf : schemas.find? (fun a => a.schema.id == t.id) = some e) :
    referencingNamedSchemas schemas (some t) = some (.registeredRef e.key) := by
  cases t with
  | effects i r inner => simp [Zod.isEffectsInstance] at ht
  | object i =>
    simp only [Zod.id_object] at hf
    simp [referencingNamedSchemas, hf]
  | array i el =>
    simp only [Zod.id_array] at hf
    simp [referencingNamedSchemas, hf]
  | other i =>
    simp only [Zod.id_other] at hf
    simp [referencingNamedSchemas, hf]

/-- Array branch of the resolver: an array schema that is not itself
registered but whose element is resolves to an array of the element's
reference. -/
theorem resolver_array_hit (schemas : List SchemaEntry) (aid : Nat) (elem : Zod)
    (hf1 : schemas.find? (fun a => a.schema.id == aid) = none) {e : SchemaEntry}
    (hf2 : schemas.find? (fun a => a.schema.id == elem.id) = some e) :
    referencingNamedSchemas schemas (some (.array aid elem)) = some (.arrayOfRef e.key) := by
  simp [referencingNamedSchemas, hf1, hf2]

/-- Fallthrough branch of the resolver: a non-wrapped schema matching no
registry entry, neither directly nor through its array element, is returned
unchanged for inlining. -/
theorem resolver_miss (schemas : List SchemaEntry) (t : Zod)
    (ht : t.isEffectsInstance = false)
    (hf : schemas.find? (fun a => a.schema.id == t.id) = none)
    (hel : ∀ el, t.element? = some el →
      schemas.find? (fun a => a.schema.id == el.id) = none) :
    referencingNamedSchemas schemas (some t) = some (.inline t) := by
  cases t with
  | effects i r inner => simp [Zod.isEffectsInstance] at ht
  | object i =>
    simp only [Zod.id_object] at hf
    simp [referencingNamedSchemas, hf]
  | array i el =>
    have h2 := hel el rfl
    simp only [Zod.id_array] at hf
    simp [referencingNamedSchemas, hf, h2]
  | other i =>
    simp only [Zod.id_other] at hf
    simp [referencingNamedSchemas, hf]

/-- C2 (amended): with registry schema ids pairwise distinct, a registered
schema resolves to its own registered reference; an array whose element is a
registered schema resolves to an array of that reference provided the array
itself is not reference-identical to a registered entry; a non-wrapped
schema matching no entry (directly or as an array element) is returned
unchanged for inlining. -/
theorem referencingNamedSchemas_identity (modules : List (List (String × Zod)))
    (N : String) (S : Zod)
    (hnodup : ((buildRegistrySchemas modules).map (fun e => e.schema.id)).Nodup)
    (hmem : ({ key := N, schema := S } : SchemaEntry) ∈ buildRegistrySchemas modules) :
    referencingNamedSchemas (buildRegistrySchemas modules) (some S)
      = some (.registeredRef N)
    ∧ (∀ aid : Nat, (∀ e ∈ buildRegistrySchemas modules, e.schema.id ≠ aid) →
        referencingNamedSchemas (buildRegistrySchemas modules) (some (.array aid S))
          = some (.arrayOfRef N))
    ∧ (∀ t : Zod, t.isEffectsInstance = false →
        (∀ e ∈ buildRegistrySchemas modules, e.schema.id ≠ t.id) →
        (∀ e ∈ buildRegistrySchemas modules, ∀ el, t.element? = some el →
          e.schema.id ≠ el.id) →
        referencingNamedSchemas (buildRegistrySchemas modules) (some t)
          = some (.inline t)) := by
  have hkind : (S.isObjectInstance || S.isArrayInstance) = true := by
    simpa using mem_buildRegistrySchemas_kind hmem
  have ht : S.isEffectsInstance = false := by
    cases S <;> simp_all [Zod.isObjectInstance, Zod.isArrayInstance, Zod.isEffectsInstance]
  have hfind : (buildRegistrySchemas modules).find? (fun a => a.schema.id == S.id)
      = some { key := N, schema := S } := by
    simpa using find_entry_by_id_of_mem hnodup hmem
  refine ⟨?_, ?_, ?_⟩
  · simpa using resolver_ident_hit _ S ht hfind
  · intro aid hno
    have hf1 : (buildRegistrySchemas modules).find? (fun a => a.schema.id == aid) = none :=
      List.find?_eq_none.mpr (fun e he => by simpa using hno e he)
    simpa using resolver_array_hit _ aid S hf1 hfind
  · intro t htt h1 h2
    refine resolver_miss _ t htt (List.find?_eq_none.mpr (fun e he => by simpa using h1 e he))
      (fun el hel => List.find?_eq_none.mpr (fun e he => by simpa using h2 e he el hel))

/-- C2 witness: an array of the registered Body schema resolves to an array
of the registered reference. -/
theorem referencingNamedSchemas_identity_witness :
    referencingNamedSchemas (buildRegistrySchemas c2WitnessModules)
      (some (.array 2 (.object 1))) = some (.arrayOfRef "Body") :=
  (referencingNamedSchemas_identity c2WitnessModules "Body" (Zod.object 1)
    (by decide) (by decide)).2.1 2 (by decide)

/-- C2 counterexample: when the array schema is itself registered (under
"List") and its element is registered too (under "Elem"), the resolver
returns the array's own reference, not an array of the element's reference,
refuting the claim's unconditional array clause. -/
theorem referencingNamedSchemas_identity_cex :
    ({ key := "Elem", schema := Zod.object 1 } : SchemaEntry)
        ∈ buildRegistrySchemas cexRegistryModules
    ∧ (Zod.array 2 (Zod.object 1)).element? = some (Zod.object 1)
    ∧ referencingNamedSchemas (buildRegistrySchemas cexRegistryModules)
        (some (.array 2 (.object 1))) = some (.registeredRef "List")
    ∧ referencingNamedSchemas (buildRegistrySchemas cexRegistryModules)
        (some (.array 2 (.object 1))) ≠ some (.arrayOfRef "Elem") := by
  refine ⟨by decide, by decide, by decide, by decide⟩

/-- C4 (amended): the synthesized response map contains 401 (resp. 403) iff
the caller supplied a non-empty description; 404 iff a params schema is
declared; 400 iff a query or body schema is declared; and exactly one of a
non-JSON 200 (when a non-empty content-type override is declared), a JSON
200 from the resolved response schema (when a response schema is declared
and there is no such override), or a 204 no-content entry (when neither is
declared), in that priority order. -/
theorem buildResponses_synthesis (e401 e403 : Option String) (info : RouteSchemaInfo)
    (schemas : List SchemaEntry) :
    (((buildResponses e401 e403 info schemas).lookup 401).isSome = jsTruthy e401)
    ∧ (((buildResponses e401 e403 info schemas).lookup 403).isSome = jsTruthy e403)
    ∧ (((buildResponses e401 e403 info schemas).lookup 404).isSome = info.params.isSome)
    ∧ (((buildResponses e401 e403 info schemas).lookup 400).isSome
        = (info.query.isSome || info.body.isSome))
    ∧ (jsTruthy info.responseContentType = true →
        (buildResponses e401 e403 info schemas).lookup 200
          = some { description := "A " ++ info.responseContentType.getD "" ++ " payload",
                   content := some (info.responseContentType.getD "", ContentSchema.zUnknown) }
        ∧ (buildResponses e401 e403 info schemas).lookup 204 = none)
    ∧ (∀ r, jsTruthy info.responseContentType = false → info.response = some r →
        (buildResponses e401 e403 info schemas).lookup 200
          = some { description := "200",
                   content := some ("application/json",
                     ContentSchema.resolved
                       ((referencingNamedSchemas schemas (some r)).getD (.inline r))) }
        ∧ (buildResponses e401 e403 info schemas).lookup 204 = none)
    ∧ (jsTruthy info.responseContentType = false → info.response = none →
        (buildResponses e401 e403 info schemas).lookup 200 = none
        ∧ (buildResponses e401 e403 info schemas).lookup 204
            = some { description := "No content - successful operation", content := none }) := by
  cases h1 : jsTruthy e401 <;> cases h3 : jsTruthy e403 <;>
    cases hp : info.params.isSome <;> cases hqb : (info.query.isSome || info.body.isSome) <;>
      cases hct : jsTruthy info.responseContentType <;> cases hr : info.response <;>
        simp [buildResponses, h1, h3, hp, hqb, hct, hr, List.lookup]

/-- C4 witness: a route with no schemas at all synthesizes the 204 entry. -/
theorem buildResponses_synthesis_witness :
    (buildResponses (some "Unauthorized") none ({} : RouteSchemaInfo) []).lookup 204
      = some { description := "No content - successful operation", content := none } :=
  ((buildResponses_synthesis (some "Unauthorized") none {} []).2.2.2.2.2.2
    (by decide) rfl).2

/-- C4 counterexample: an empty string supplied as the 401 description is
falsy in the source's truthiness test, so no 401 response is emitted even
though the caller supplied a description, refuting the claim's plain iff. -/
theorem buildResponses_synthesis_cex :
    (some "" : Option String).isSome = true
    ∧ (buildResponses (some "") none ({} : RouteSchemaInfo) []).lookup 401 = none := by
  refine ⟨by decide, by decide⟩

theorem fixParameters_spec (route : String) (ps : List OAParameter) :
    fixParameters route ps =
      (ps.map fixParam,
       (ps.filter (fun p => p.required == some false && p.location == "path")).map
         (fun p => optionalPathParamWarning route p.name)) := by
  induction ps with
  | nil => rfl
  | cons p rest ih =>
    by_cases h : (p.required == some false && p.location == "path") = true <;>
      simp [fixParameters, ih, fixParam, h]

theorem fixOperations_spec (route : String) (ops : List (String × OAOperation)) :
    fixOperations route ops =
      (ops.map (fun mo => (mo.1, { parameters := mo.2.parameters.map fixParam })),
       ops.flatMap (fun mo =>
         (mo.2.parameters.filter (fun p => p.required == some false && p.location == "path")).map
           (fun p => optionalPathParamWarning route p.name))) := by
  induction ops with
  | nil => rfl
  | cons mo rest ih =>
    obtain ⟨m, op⟩ := mo
    simp [fixOperations, ih, fixParameters_spec]

theorem fixPaths_spec (paths : List (String × List (String × OAOperation))) :
    fixPaths paths =
      (paths.map (fun rp => (rp.1, rp.2.map
          (fun mo => (mo.1, { parameters := mo.2.parameters.map fixParam })))),
       paths.flatMap (fun rp =>
         rp.2.flatMap (fun mo =>
           (mo.2.parameters.filter
               (fun p => p.required == some false && p.location == "path")).map
             (fun p => optionalPathParamWarning rp.1 p.name)))) := by
  induction paths with
  | nil => rfl
  | cons rp rest ih =>
    obtain ⟨route, ops⟩ := rp
    simp [fixPaths, ih, fixOperations_spec]

/-- The repair makes any explicitly-flagged path parameter required. -/
theorem fixParam_path_required {p : OAParameter} (hs : p.required.isSome = true)
    (hloc : p.location = "path") : (fixParam p).required = some true := by
  obtain ⟨b, hb⟩ := Option.isSome_iff_exists.mp hs
  cases b with
  | true => simp [fixParam, hb]
  | false => simp [fixParam, hb, hloc]

/-- C6: after the post-validation pass, every path-located parameter with an
explicit required flag is marked required; the returned document is the
input with exactly the optional path parameters rewritten to required; and
the diagnostics are exactly one warning per offending parameter, naming its
route and parameter name, in traversal order — the pass never fails. -/
theorem fixPaths_path_params_required
    (paths : List (String × List (String × OAOperation)))
    (hexplicit : ∀ rp ∈ paths, ∀ mo ∈ rp.2, ∀ p ∈ mo.2.parameters,
      p.required.isSome = true) :
    (∀ rp ∈ (fixPaths paths).1, ∀ mo ∈ rp.2, ∀ p ∈ mo.2.parameters,
        p.location = "path" → p.required = some true)
    ∧ (fixPaths paths).1 = paths.map (fun rp => (rp.1, rp.2.map
        (fun mo => (mo.1, { parameters := mo.2.parameters.map fixParam }))))
    ∧ (fixPaths paths).2 = paths.flatMap (fun rp =>
        rp.2.flatMap (fun mo =>
          (mo.2.parameters.filter
              (fun p => p.required == some false && p.location == "path")).map
            (fun p => optionalPathParamWarning rp.1 p.name))) := by
  refine ⟨?_, (congrArg Prod.fst (fixPaths_spec paths)),
    (congrArg Prod.snd (fixPaths_spec paths))⟩
  intro rp hrp mo hmo p hp hloc
  rw [congrArg Prod.fst (fixPaths_spec paths)] at hrp
  obtain ⟨rp0, hrp0, rfl⟩ := List.mem_map.mp hrp
  obtain ⟨mo0, hmo0, rfl⟩ := List.mem_map.mp hmo
  obtain ⟨p0, hp0, rfl⟩ := List.mem_map.mp hp
  have hs : p0.required.isSome = true := hexplicit rp0 hrp0 mo0 hmo0 p0 hp0
  have hloc0 : p0.location = "path" := by
    by_cases h : (p0.required == some false && p0.location == "path") = true
    · simpa [fixParam, h] using hloc
    · simpa [fixParam, h] using hloc
  exact fixParam_path_required hs hloc0

set_option maxRecDepth 8192 in
/-- C6 witness: a document with one optional path parameter is repaired to
required with exactly one warning naming the route and the parameter. -/
theorem fixPaths_path_params_required_witness :
    (fixPaths docPathsW).2 = [optionalPathParamWarning "/users/\x7bid\x7d" "id"]
    ∧ (fixPaths docPathsW).1
      = [("/users/\x7bid\x7d",
          [("get", { parameters := [{ name := "id", location := "path",
                                      required := some true }] })])] := by
  have h := fixPaths_path_params_required docPathsW (by decide)
  exact ⟨h.2.2.trans (by decide), h.2.1.trans (by decide)⟩

/-- C7: discovery of a router mounted at the literal prefix /v1 containing
the route /users/:id yields the concatenated path /v1/users/:id, and the
path-template translation rewrites each :segment placeholder to a braced
segment by literal case-insensitive replacement, yielding /v1/users/{id}. -/
theorem route_discovery_and_path_format :
    getRoutes [[v1Router]] = [{ path := "/v1/users/:id", method := "get", handler := 7 }]
    ∧ pathOpenAPIFormat "/v1/users/:id" = "/v1/users/{id}"
    ∧ pathOpenAPIFormat "/a/:x/b/:y" = "/a/{x}/b/{y}" := by
  refine ⟨by decide, by decide, by decide⟩

/-- C10: the registry holds exactly the exported (name, schema) pairs whose
schema is an object or array instance; an exported schema of any other kind
is excluded, and (with the distinct ids of distinct instances) the identity
lookup over the registry can never find it. -/
theorem buildRegistrySchemas_filter (modules : List (List (String × Zod))) :
    (∀ N S, ({ key := N, schema := S } : SchemaEntry) ∈ buildRegistrySchemas modules ↔
        ((N, S) ∈ modules.flatten ∧ (S.isObjectInstance || S.isArrayInstance) = true))
    ∧ (∀ N S, (N, S) ∈ modules.flatten →
        (S.isObjectInstance || S.isArrayInstance) = false →
        (modules.flatten.map (fun kv => kv.2.id)).Nodup →
        (buildRegistrySchemas modules).find? (fun e => e.schema.id == S.id) = none) := by
  constructor
  · intro N S
    constructor
    · intro h
      exact ⟨mem_buildRegistrySchemas_src h, mem_buildRegistrySchemas_kind h⟩
    · rintro ⟨hmem, hkind⟩
      exact List.mem_map.mpr ⟨(N, S), List.mem_filter.mpr ⟨hmem, hkind⟩, rfl⟩
  · intro N S hmem hkind hnd
    refine List.find?_eq_none.mpr (fun e he => ?_)
    simp only [beq_iff_eq]
    intro hid
    have hesrc := mem_buildRegistrySchemas_src he
    have hekind := mem_buildRegistrySchemas_kind he
    have heq : (e.key, e.schema) = (N, S) :=
      List.inj_on_of_nodup_map hnd hesrc hmem (by simpa using hid)
    rw [show e.schema = S from congrArg Prod.snd heq] at hekind
    rw [hekind] at hkind
    exact Bool.noConfusion hkind

/-- C10 witness: an exported object schema is registered while an exported
effects schema is excluded and unfindable by identity. -/
theorem buildRegistrySchemas_filter_witness :
    ({ key := "A", schema := Zod.object 1 } : SchemaEntry) ∈ buildRegistrySchemas c10WitnessModules
    ∧ (buildRegistrySchemas c10WitnessModules).find?
        (fun e => e.schema.id == (Zod.effects 2 none (Zod.object 1)).id) = none := by
  refine ⟨((buildRegistrySchemas_filter c10WitnessModules).1 "A" (Zod.object 1)).mpr (by decide),
    (buildRegistrySchemas_filter c10WitnessModules).2 "E" (Zod.effects 2 none (Zod.object 1))
      (by decide) (by decide) (by decide)⟩
